import Mathlib

/-!
Verification of the recording-vector-store ingestion orchestrator.

Shallow embedding of the Python modules `server/store.py`, `server/media.py`,
`server/transcription/dg.py` and `server/transcription/whspr.py`.

Modelling conventions:
* the file system is a list of existing paths (`List String`, duplicate-free by
  construction via `insertFile`);
* side effects are recorded in an event trace (`List Event`);
* a Python function that may raise returns `... × Option String`, the `Option`
  holding the message of a propagated exception (`none` = returned normally);
  state components threaded through model the effects performed before a raise;
* external collaborators (Daily REST API, moviepy, Deepgram, Whisper, the
  llama-index engine) are parameterised by their outcome (`Bool` / `Except`),
  since the spec treats them as external collaborators with interfaces only.
-/

/-! ## Path model (os.path / pathlib fragments used by the code)

All string work is done on character lists with structural recursion, so
every definition evaluates on concrete inputs. -/

/-- Whether the first list is a prefix of the second. -/
def isPrefChars : List Char → List Char → Bool
  | [], _ => true
  | _ :: _, [] => false
  | a :: as, b :: bs => a == b && isPrefChars as bs

/-- Whether `pat` occurs as a contiguous sublist of the second argument. -/
def containsChars (pat : List Char) : List Char → Bool
  | [] => isPrefChars pat []
  | c :: rest => isPrefChars pat (c :: rest) || containsChars pat rest

/-- Whether the string ends with the given character suffix. -/
def ends_with_chars (sfx : List Char) (s : String) : Bool :=
  isPrefChars sfx.reverse s.toList.reverse

/-- Model of `os.path.join(dir, name)` for a single relative or absolute name. -/
def path_join (dir name : String) : String :=
  if name.toList.head? = some '/' then name
  else if dir.toList.isEmpty then name
  else if dir.toList.getLast? = some '/' then dir ++ name
  else dir ++ "/" ++ name

/-- Index of the last '.' in a list of characters, if any. -/
def rfind_dot : List Char → Option Nat
  | [] => none
  | c :: rest =>
    match rfind_dot rest with
    | some i => some (i + 1)
    | none => if c = '.' then some 0 else none

/-- Final path component, as in `pathlib.PurePath.name` /`os.path.basename`
for the slash-free tails produced by this code base. -/
def basename (p : String) : String :=
  String.mk ((p.toList.reverse.takeWhile (fun c => c ≠ '/')).reverse)

/-- Stem of a file name: `pathlib.PurePath.stem` on the final component.
CPython strips the extension only when the last dot is neither leading nor
trailing in the name. -/
def stem_of_base (b : String) : String :=
  let cs := b.toList
  match rfind_dot cs with
  | some i => if 0 < i ∧ i + 1 < cs.length then String.mk (cs.take i) else b
  | none => b

/-- Extension of a file name including the dot: `pathlib.PurePath.suffix`
on the final component. -/
def suffix_of_base (b : String) : String :=
  let cs := b.toList
  match rfind_dot cs with
  | some i => if 0 < i ∧ i + 1 < cs.length then String.mk (cs.drop i) else ""
  | none => ""

/-- Model of `pathlib.Path(p).stem`. -/
def stem (p : String) : String := stem_of_base (basename p)

/-- Model of `pathlib.Path(p).suffix`. -/
def path_suffix (p : String) : String := suffix_of_base (basename p)

/-- Model of `os.path.dirname`: the path up to the last '/', trailing
slashes stripped unless the result would be empty (the filesystem root). -/
def dirname (p : String) : String :=
  let rest := p.toList.reverse.dropWhile (fun c => c ≠ '/')
  match rest with
  | [] => ""
  | _ =>
    let head := rest.reverse
    let stripped := (head.reverse.dropWhile (fun c => c = '/')).reverse
    if stripped.isEmpty then String.mk head else String.mk stripped

/-- Python truthiness of an optional string: `None` and `""` are falsy. -/
def truthy : Option String → Bool
  | none => false
  | some s => !s.isEmpty

/-- Model of Python's substring test for the literal "413"
(`"413" in str(e)` in `transcribe_and_index_recording`). -/
def mentions413 (s : String) : Bool := containsChars ['4', '1', '3'] s.toList

/-! ## Upload directory scan (`media.get_uploaded_file_paths`) -/

/-- One entry of the uploads directory as the scan observes it.
`openOk` records whether `open(path, "r+")` succeeds (an `IOError` is the
still-being-written signal the code reacts to). `size1` and `size2` are two
size samples of the file taken a wait interval apart; the code never reads
them — they are carried so that the size-stability heuristic claimed by the
spec can be stated and compared against the code. -/
structure DirEntry where
  name : String
  isFile : Bool
  openOk : Bool
  size1 : Nat
  size2 : Nat
  deriving DecidableEq, Repr

/-- Embedding of `media.get_uploaded_file_paths`: iterate over the directory;
skip entries that are not regular files with suffix ".mp4"; for a candidate,
try to open it read/write — on success append its path and `break`, on
`IOError` log and continue with the next entry. -/
def get_uploaded_file_paths : List DirEntry → List String
  | [] => []
  | e :: rest =>
    if e.isFile && (path_suffix e.name == ".mp4") then
      if e.openOk then [e.name] else get_uploaded_file_paths rest
    else get_uploaded_file_paths rest

/-- Inclusion predicate actually enforced by the scan loop body. -/
def scan_includable (e : DirEntry) : Bool :=
  e.isFile && (path_suffix e.name == ".mp4") && e.openOk

/-! ## Store state (`store.State`, `store.Status`, the `Store` instance fields) -/

/-- Embedding of `store.State`, the index lifecycle states. -/
inductive State where
  | uninitialized
  | creating
  | updating
  | loading
  | ready
  | error
  deriving DecidableEq, Repr

/-- Embedding of `store.Status`: current state plus a descriptive message.
`update_status` is called with `message=None` on one path, hence `Option`. -/
structure Status where
  state : State
  message : Option String
  deriving DecidableEq, Repr

/-- Observable side effects of the pipeline, recorded as a trace. -/
inductive Event where
  | getAccessLink (recordingId : String)
  | downloadRecording (url : String)
  | extractAudio (videoPath : String)
  | transcribeCall (recordingUrl : Option String) (audioPath : Option String)
  | logSkipTooLarge (url : String)
  | logSkipFailure (url : String) (msg : String)
  | writeTranscript (path : String) (text : String)
  | insertDoc (text : String)
  | removeFile (path : String)
  | createIndex
  | persistIndex
  | cancelPool (poolId : Nat)
  | awaitDrain (poolId : Nat)
  deriving DecidableEq, Repr

/-- Extraction, download and transcription work on behalf of one item. -/
def Event.isMediaWork : Event → Bool
  | .downloadRecording _ => true
  | .extractAudio _ => true
  | .transcribeCall _ _ => true
  | _ => false

/-- Either of the two log lines emitted by the `except` clause of
`transcribe_and_index_recording`. -/
def Event.isSkipLog : Event → Bool
  | .logSkipTooLarge _ => true
  | .logSkipFailure _ _ => true
  | _ => false

def Event.isWriteTranscript : Event → Bool
  | .writeTranscript _ _ => true
  | _ => false

def Event.isInsertDoc : Event → Bool
  | .insertDoc _ => true
  | _ => false

def Event.isAwaitDrain : Event → Bool
  | .awaitDrain _ => true
  | _ => false

/-- Mutable fields of the `Store` instance together with the file system:
`status`, whether `self.index` is non-None, the documents passed to
`self.index.insert`, and the set of existing file paths. -/
structure StoreState where
  status : Status
  indexLoaded : Bool
  indexDocs : List String
  fs : List String
  deriving DecidableEq, Repr

/-- Embedding of `Store.ready`: `self.index is not None`. -/
def ready (st : StoreState) : Bool := st.indexLoaded

/-- Embedding of `Store.update_status` specialised to the call sites that pass
both a state and a message (all call sites in `initialize_or_update`). -/
def set_status (st : StoreState) (s : State) (m : String) : StoreState :=
  { st with status := { state := s, message := some m } }

/-- Creating a file: a path enters the file-system set (no duplicates). -/
def insertFile (p : String) (fs : List String) : List String :=
  if fs.contains p then fs else p :: fs

/-- Configuration directories and the configured Daily room name. -/
structure StoreCfg where
  daily_room_name : Option String
  transcripts_dir : String
  recordings_dir : String
  upload_dir : String
  deriving DecidableEq, Repr

/-- Behaviour of `self.transcriber`: the capability flag and, for each
(recording_url, audio_path) argument pair, either the transcript text or the
message of the exception `transcribe` raises. -/
structure TranscriberModel where
  requires_local_audio : Bool
  transcribe : Option String → Option String → Except String String

/-! ## Per-item pipeline (`store.transcribe_and_index_file`,
`store.transcribe_and_index_recording`, `store.save_and_index_transcript`,
`media.produce_local_audio_from_url`) -/

/-- Model of `media.get_audio_path`: sibling `.wav` file of a video path. -/
def get_audio_path (video_path : String) : String :=
  path_join (dirname video_path) (stem video_path ++ ".wav")

/-- Deterministic key of a Daily recording
(`f"{recording.timestamp}_{recording.room_name}_{recording.id}"`). -/
structure Recording where
  id : String
  room_name : String
  timestamp : String
  deriving DecidableEq, Repr

def recording_file_name (r : Recording) : String :=
  r.timestamp ++ "_" ++ r.room_name ++ "_" ++ r.id

/-- Transcript path a Daily recording is keyed under. -/
def recording_transcript_path (cfg : StoreCfg) (r : Recording) : String :=
  path_join cfg.transcripts_dir (recording_file_name r ++ ".txt")

/-- Transcript path an uploaded video is keyed under (stem of the video). -/
def upload_transcript_path (tdir video_path : String) : String :=
  path_join tdir (stem video_path ++ ".txt")

/-- Download link resolved by `daily.get_access_link` for a recording id. -/
def access_link_url (r : Recording) : String :=
  "https://daily/recordings/" ++ r.id ++ "/access-link"

/-- Embedding of `Store.save_and_index_transcript`: write the transcript file
first, then, only when `self.ready() is True`, insert the document into the
loaded index. -/
def save_and_index_transcript (st : StoreState)
    (transcript_file_path transcript : String) : StoreState × List Event :=
  let st1 := { st with fs := insertFile transcript_file_path st.fs }
  if ready st then
    ({ st1 with indexDocs := st1.indexDocs ++ [transcript] },
     [Event.writeTranscript transcript_file_path transcript,
      Event.insertDoc transcript])
  else
    (st1, [Event.writeTranscript transcript_file_path transcript])

/-- Embedding of `media.produce_local_audio_from_url`: download the recording
into the upload directory, extract its audio, delete the video. Both the
download and the extraction may raise; the result carries the file system
after the effects performed so far, the trace, and either the audio path or
the propagated exception message. -/
def produce_local_audio_from_url (cfg : StoreCfg) (downloadOk extractOk : Bool)
    (recording_url file_name : String) (fs : List String) :
    List String × List Event × Except String String :=
  let vpath := path_join cfg.upload_dir (file_name ++ ".mp4")
  if downloadOk = false then
    (insertFile vpath fs, [Event.downloadRecording recording_url],
     Except.error "failed to download Daily recording")
  else
    let fs1 := insertFile vpath fs
    let apath := get_audio_path vpath
    if extractOk = false then
      (fs1, [Event.downloadRecording recording_url, Event.extractAudio vpath],
       Except.error "failed to save extracted audio file")
    else
      ((insertFile apath fs1).erase vpath,
       [Event.downloadRecording recording_url, Event.extractAudio vpath],
       Except.ok apath)

/-- Log line of the `except` clause of `transcribe_and_index_recording`: an
oversized-payload failure (message containing "413") is logged distinctly. -/
def logEvent (recording_url e : String) : Event :=
  if mentions413 e then Event.logSkipTooLarge recording_url
  else Event.logSkipFailure recording_url e

/-- Tail of `Store.transcribe_and_index_recording` from the `try` block on:
the transcription call is wrapped in `try/except` — a failure is logged
(distinguishing a message containing "413") and the method returns normally;
on success the transcript is saved and maybe indexed, then the local audio
file, if any, is removed. -/
def finish_recording_item (tr : TranscriberModel) (st : StoreState)
    (ev : List Event) (recording_url : String) (audio_path : Option String)
    (transcript_file_path : String) : StoreState × List Event × Option String :=
  match tr.transcribe (some recording_url) audio_path with
  | Except.error e =>
    (st, ev ++ [Event.transcribeCall (some recording_url) audio_path,
                logEvent recording_url e],
     none)
  | Except.ok transcript =>
    let p := save_and_index_transcript st transcript_file_path transcript
    if truthy audio_path then
      ({ p.1 with fs := p.1.fs.erase (audio_path.getD "") },
       ev ++ [Event.transcribeCall (some recording_url) audio_path] ++ p.2
          ++ [Event.removeFile (audio_path.getD "")],
       none)
    else
      (p.1,
       ev ++ [Event.transcribeCall (some recording_url) audio_path] ++ p.2,
       none)

/-- Embedding of `Store.transcribe_and_index_recording`. `accessOk`,
`downloadOk`, `extractOk` parameterise the outcomes of the Daily REST call
and of the media download/extraction, which are NOT inside the `try` and so
propagate on failure. -/
def transcribe_and_index_recording (cfg : StoreCfg) (tr : TranscriberModel)
    (accessOk downloadOk extractOk : Bool)
    (st : StoreState) (r : Recording) : StoreState × List Event × Option String :=
  if truthy cfg.daily_room_name ∧ cfg.daily_room_name ≠ some r.room_name then
    (st, [], none)
  else
  let file_name := recording_file_name r
  let transcript_file_path := path_join cfg.transcripts_dir (file_name ++ ".txt")
  if st.fs.contains transcript_file_path then (st, [], none)
  else if accessOk = false then
    (st, [Event.getAccessLink r.id], some "Failed to get recording access link")
  else
  let recording_url := access_link_url r
  let ev0 := [Event.getAccessLink r.id]
  if tr.requires_local_audio then
    let remote_apath := path_join cfg.recordings_dir (file_name ++ ".wav")
    if st.fs.contains remote_apath then
      finish_recording_item tr st ev0 recording_url (some remote_apath)
        transcript_file_path
    else
      let q := produce_local_audio_from_url cfg downloadOk extractOk
        recording_url file_name st.fs
      match q.2.2 with
      | Except.error e => ({ st with fs := q.1 }, ev0 ++ q.2.1, some e)
      | Except.ok apath =>
        finish_recording_item tr { st with fs := q.1 } (ev0 ++ q.2.1)
          recording_url (some apath) transcript_file_path
  else
    finish_recording_item tr st ev0 recording_url none transcript_file_path

/-- Tail of `Store.transcribe_and_index_file` after the audio file is known to
exist: remove the video, transcribe (NOT wrapped in `try` — an exception
propagates out of the item job), save and maybe index, remove the audio. -/
def upload_after_audio (tr : TranscriberModel)
    (fs1 : List String) (ev1 : List Event) (st : StoreState)
    (video_path audio_path transcript_file_path : String) :
    StoreState × List Event × Option String :=
  let fs2 := fs1.erase video_path
  let ev2 := ev1 ++ [Event.removeFile video_path]
  match tr.transcribe none (some audio_path) with
  | Except.error e =>
    ({ st with fs := fs2 },
     ev2 ++ [Event.transcribeCall none (some audio_path)], some e)
  | Except.ok transcript =>
    let p := save_and_index_transcript { st with fs := fs2 }
      transcript_file_path transcript
    ({ p.1 with fs := p.1.fs.erase audio_path },
     ev2 ++ [Event.transcribeCall none (some audio_path)] ++ p.2
        ++ [Event.removeFile audio_path],
     none)

/-- Embedding of `Store.transcribe_and_index_file`, the uploads per-item job:
skip (and delete the video) when the transcript already exists; otherwise
extract the audio if absent (`extract_audio` may raise and propagates),
remove the video, transcribe, save/index, remove the audio. -/
def transcribe_and_index_file (tdir : String) (tr : TranscriberModel)
    (extractOk : Bool) (st : StoreState) (video_path : String) :
    StoreState × List Event × Option String :=
  let transcript_file_path := upload_transcript_path tdir video_path
  if st.fs.contains transcript_file_path then
    ({ st with fs := st.fs.erase video_path },
     [Event.removeFile video_path], none)
  else
  let audio_path := get_audio_path video_path
  if st.fs.contains audio_path then
    upload_after_audio tr st.fs [] st video_path audio_path transcript_file_path
  else if extractOk then
    upload_after_audio tr (insertFile audio_path st.fs)
      [Event.extractAudio video_path] st video_path audio_path
      transcript_file_path
  else
    (st, [Event.extractAudio video_path],
     some "failed to save extracted audio file")

/-! ## Batches and the orchestrator (`store.initialize_or_update` and friends) -/

/-- Joint completion of one batch of item jobs dispatched by
`asyncio.gather`: every task runs (a raising task does not cancel its
siblings), and the batch-level await re-raises the first exception, if any.
Items are composed sequentially — each item touches only its own derived
paths. -/
def run_batch (step : StoreState → α → StoreState × List Event × Option String)
    (st : StoreState) : List α → StoreState × List Event × Option String
  | [] => (st, [], none)
  | i :: rest =>
    let r1 := step st i
    let r2 := run_batch step r1.1 rest
    (r2.1, r1.2.1 ++ r2.2.1, r1.2.2 <|> r2.2.2)

/-- Embedding of `Store.generate_upload_transcripts`: scan the uploads
directory, keep `.mp4`/`.mov` paths, and fan the per-file jobs out
(modelled as the sequential batch). -/
def generate_upload_transcripts (tdir : String) (tr : TranscriberModel)
    (extractOk : Bool) (entries : List DirEntry) (st : StoreState) :
    StoreState × List Event × Option String :=
  let paths := (get_uploaded_file_paths entries).filter
    (fun p => ends_with_chars ['.', 'm', 'p', '4'] p
      || ends_with_chars ['.', 'm', 'o', 'v'] p)
  run_batch (transcribe_and_index_file tdir tr extractOk) st paths

/-- Embedding of `Store.index_daily_recordings`: fetch the recordings
(`daily.fetch_recordings` may raise, which propagates) and fan the per-item
jobs out. -/
def index_daily_recordings (cfg : StoreCfg) (tr : TranscriberModel)
    (fetched : Except String (List Recording))
    (accessOk downloadOk extractOk : Bool) (st : StoreState) :
    StoreState × List Event × Option String :=
  match fetched with
  | Except.error e => (st, [], some e)
  | Except.ok rs =>
    run_batch (transcribe_and_index_recording cfg tr accessOk downloadOk extractOk)
      st rs

/-- Update phase of `Store.initialize_or_update` (the second half of the
method): set UPDATING, run the per-source ingestion, persist the index
(`self.index.storage_context.persist` raises when `self.index` is `None` or
when persistence itself fails), and resolve to READY or ERROR. `ev0` is the
trace accumulated by the creation phase. -/
def initialize_update_phase
    (ingest : StoreState → StoreState × List Event × Option String)
    (persist_ok : Bool) (st : StoreState) (ev0 : List Event) :
    StoreState × List Event :=
  let stU := set_status st State.updating "Updating index"
  let r := ingest stU
  match r.2.2 with
  | some _ =>
    (set_status r.1 State.error "Failed to update existing index",
     ev0 ++ r.2.1)
  | none =>
    if r.1.indexLoaded ∧ persist_ok then
      (set_status r.1 State.ready "Index ready to query",
       ev0 ++ r.2.1 ++ [Event.persistIndex])
    else
      (set_status r.1 State.error "Failed to update existing index",
       ev0 ++ r.2.1)

/-- Embedding of `Store.initialize_or_update`. `ingest` is the per-source
ingestion pipeline (`index_daily_recordings` for DAILY,
`generate_upload_transcripts` for UPLOADS, a no-op for any other source);
`create_ok` is the outcome of the `create_index` bulk build inside
`generate_index`; `persist_ok` the outcome of the final persist. Every
exception of either phase is caught by the method's two `try/except` blocks,
so the embedding is a total function into a state — nothing propagates. -/
def initialize_or_update
    (ingest : StoreState → StoreState × List Event × Option String)
    (create_ok persist_ok : Bool) (st : StoreState) : StoreState × List Event :=
  if ready st then
    initialize_update_phase ingest persist_ok st []
  else
    let stC := set_status st State.creating "Creating index"
    let r1 := ingest stC
    match r1.2.2 with
    | some _ => (set_status r1.1 State.error "Failed to create index", r1.2.1)
    | none =>
      if create_ok then
        initialize_update_phase ingest persist_ok
          { r1.1 with indexLoaded := true }
          (r1.2.1 ++ [Event.createIndex])
      else
        (set_status r1.1 State.error "Failed to create index", r1.2.1)

/-! ## Query (`Store.query`) -/

/-- Failure modes of `Store.query`: the not-ready guard raises its own
dedicated exception before any engine work; once ready, only the engine's
own failure can surface. -/
inductive QueryError where
  | notReady
  | engineFailure (msg : String)
  deriving DecidableEq, Repr

/-- Embedding of `Store.query`: raise the not-ready condition if no index
handle is loaded, otherwise delegate to the query engine and return its
response verbatim. `engine_answer` is the engine's behaviour for this query. -/
def query (st : StoreState) (engine_answer : Except String String) :
    Except QueryError String :=
  if ready st = false then Except.error QueryError.notReady
  else
    match engine_answer with
    | Except.ok a => Except.ok a
    | Except.error m => Except.error (QueryError.engineFailure m)

/-! ## Transcriber variants (`transcription/dg.py`, `transcription/whspr.py`) -/

/-- Failure modes across the two transcriber variants; each constructor is one
distinct `raise` site of the Python code. -/
inductive TranscribeError where
  | invalidInput
  | missingApiKey
  | audioFileNotFound (p : String)
  | urlTranscriptionFailed
  | fileTranscriptionFailed
  | whisperFailure
  deriving DecidableEq, Repr

/-- What a successful transcription was produced from. -/
inductive TranscribeSource where
  | fromFile (p : String)
  | fromUrl (u : String)
  deriving DecidableEq, Repr

/-- Embedding of `DeepgramTranscriber.transcribe_from_url`; `apiOk` is the
Deepgram API call outcome. -/
def dg_transcribe_from_url (apiOk : Bool) (recording_url : String) :
    Except TranscribeError TranscribeSource :=
  if apiOk then Except.ok (TranscribeSource.fromUrl recording_url)
  else Except.error TranscribeError.urlTranscriptionFailed

/-- Embedding of `DeepgramTranscriber.transcribe_from_file`: a truthy audio
path that does not exist raises before any API work. -/
def dg_transcribe_from_file (fs : List String) (apiOk : Bool)
    (audio_path : String) : Except TranscribeError TranscribeSource :=
  if !audio_path.isEmpty && !fs.contains audio_path then
    Except.error (TranscribeError.audioFileNotFound audio_path)
  else if apiOk then Except.ok (TranscribeSource.fromFile audio_path)
  else Except.error TranscribeError.fileTranscriptionFailed

/-- Embedding of `DeepgramTranscriber.transcribe`: the API-key guard runs
first, then the neither-argument guard, then local audio wins over the URL
(Python truthiness throughout). -/
def dg_transcribe (deepgram_api_key : Option String) (fs : List String)
    (apiOk : Bool) (recording_url audio_path : Option String) :
    Except TranscribeError TranscribeSource :=
  if truthy deepgram_api_key = false then
    Except.error TranscribeError.missingApiKey
  else if truthy recording_url = false ∧ truthy audio_path = false then
    Except.error TranscribeError.invalidInput
  else if truthy audio_path then
    dg_transcribe_from_file fs apiOk (audio_path.getD "")
  else
    dg_transcribe_from_url apiOk (recording_url.getD "")

/-- Embedding of `WhisperTranscriber.transcribe`: no input validation at all —
`recording_url` is ignored, `whisper.load_audio(audio_path)` fails on a
missing/empty path, and every failure is wrapped into the one generic
"failed to transcribe with Whisper" exception. `whisperOk` is the outcome of
the load/model/transcribe calls on a usable path. -/
def whisper_transcribe (whisperOk : Bool)
    (recording_url audio_path : Option String) :
    Except TranscribeError TranscribeSource :=
  match audio_path with
  | some p =>
    if whisperOk && !p.isEmpty then Except.ok (TranscribeSource.fromFile p)
    else Except.error TranscribeError.whisperFailure
  | none => Except.error TranscribeError.whisperFailure

/-! ## Shutdown (`index.shutdown`, `Store.destroy`) -/

/-- Progress of one worker-pool job. -/
inductive TaskState where
  | pending
  | running
  | done
  | cancelled
  deriving DecidableEq, Repr

/-- One outstanding worker pool of a dispatched batch. -/
structure WorkerPool where
  poolId : Nat
  tasks : List TaskState
  deriving DecidableEq, Repr

/-- Hard cancellation of one job: a finished job stays finished, every other
job is cancelled in place, with no completion of its work. -/
def cancelTask : TaskState → TaskState
  | TaskState.done => TaskState.done
  | _ => TaskState.cancelled

/-- Modelled from the spec: `Store.destroy` is absent from the source snapshot
(only its caller, `shutdown` in `server/index.py`, appears). Per the spec it
"hard-cancels all outstanding worker pools without waiting for drain
(fire-and-forget cancellation)" and "does not guarantee completion or cleanup
of in-flight item processing": each pool is cancelled and the call returns at
once, emitting no drain/await event. -/
def destroy (pools : List WorkerPool) : List WorkerPool × List Event :=
  (pools.map (fun p => { p with tasks := p.tasks.map cancelTask }),
   pools.map (fun p => Event.cancelPool p.poolId))

/-- Embedding of `index.shutdown` (`@app.after_serving`): call
`store.destroy()`, then cancel every background task of the app. -/
def shutdown (pools : List WorkerPool) (bg : List TaskState) :
    (List WorkerPool × List TaskState) × List Event :=
  let d := destroy pools
  ((d.1, bg.map cancelTask), d.2)

/-! ## Helper lemmas -/

theorem contains_insertFile (p : String) (fs : List String) :
    (insertFile p fs).contains p = true := by
  unfold insertFile
  split
  · assumption
  · simp

/-- Skip branch of `transcribe_and_index_file`: an existing transcript short
circuits the job, deleting only the source video. -/
theorem skip_file_eq (tdir : String) (tr : TranscriberModel) (extractOk : Bool)
    (st : StoreState) (video_path : String)
    (h : st.fs.contains (upload_transcript_path tdir video_path) = true) :
    transcribe_and_index_file tdir tr extractOk st video_path
      = ({ st with fs := st.fs.erase video_path },
         [Event.removeFile video_path], none) := by
  unfold transcribe_and_index_file
  simp only [upload_transcript_path] at h
  simp at h
  simp [upload_transcript_path, h]

/-- Skip branches of `transcribe_and_index_recording`: the room-name guard and
the existing-transcript guard both return with no effect at all. -/
theorem skip_recording_eq (cfg : StoreCfg) (tr : TranscriberModel)
    (accessOk downloadOk extractOk : Bool) (st : StoreState) (r : Recording)
    (h : st.fs.contains (recording_transcript_path cfg r) = true) :
    transcribe_and_index_recording cfg tr accessOk downloadOk extractOk st r
      = (st, [], none) := by
  unfold transcribe_and_index_recording
  simp only [recording_transcript_path] at h
  simp at h
  split
  · rfl
  · simp [h]


/-! ## Claim C5 — upload scan inclusion heuristic -/

/-- Claim C5 as stated is false: the scan never samples file sizes.
The entry below is a regular `.mp4` file whose two size samples a wait
interval apart differ (it is still growing), yet because it can be opened
read/write the scan includes it in the current batch. -/
theorem C5_counterexample :
    (let e : DirEntry :=
      { name := "UPLOAD_DIR/growing.mp4", isFile := true, openOk := true,
        size1 := 10, size2 := 20 }
     e.size1 ≠ e.size2
       ∧ get_uploaded_file_paths [e] = ["UPLOAD_DIR/growing.mp4"]) := by
  constructor
  · decide
  · rfl

/-- The scan returns exactly the name of the first entry that is a regular
file with suffix ".mp4" and opens read/write, if any. -/
theorem scan_eq_find (entries : List DirEntry) :
    get_uploaded_file_paths entries
      = ((entries.find? scan_includable).map DirEntry.name).toList := by
  induction entries with
  | nil => rfl
  | cons e rest ih =>
    by_cases h1 : e.isFile && (path_suffix e.name == ".mp4")
    · by_cases h2 : e.openOk
      · simp [get_uploaded_file_paths, List.find?_cons, scan_includable, h1, h2]
      · simp [get_uploaded_file_paths, List.find?_cons, scan_includable, h1, h2, ih]
    · simp [get_uploaded_file_paths, List.find?_cons, scan_includable, h1, ih]

/-- Claim C5 (amended): a file is included in the batch only if it is a
regular file with suffix ".mp4" whose `open(path, "r+")` succeeds — the
completed-write heuristic is the read/write open, not size sampling; a file
that fails to open is silently skipped (deferred to the next scan), and the
scan stops at the first included file. The two size samples play no role:
the scan result is invariant under arbitrary changes to them. -/
theorem C5_theorem (entries : List DirEntry) (f g : DirEntry → Nat) :
    get_uploaded_file_paths entries
      = ((entries.find? scan_includable).map DirEntry.name).toList
  ∧ get_uploaded_file_paths
      (entries.map (fun e => { e with size1 := f e, size2 := g e }))
      = get_uploaded_file_paths entries := by
  refine ⟨scan_eq_find entries, ?_⟩
  induction entries with
    | nil => rfl
    | cons e rest ih =>
      by_cases h1 : e.isFile && (path_suffix e.name == ".mp4")
      · by_cases h2 : e.openOk
        · simp [get_uploaded_file_paths, h1, h2]
        · simp [get_uploaded_file_paths, h1, h2, ih]
      · simp [get_uploaded_file_paths, h1, ih]

/-! ## Claim C9 — at most one `.mp4` per scan -/

/-- Claim C9: the scan returns at most one path — exactly the first regular
`.mp4` entry that opens read/write, if any — so one uploads run can process
at most one new file; every returned path has extension ".mp4" (so `.mov`
files are never returned) and belongs to a regular directory entry that
could be opened read/write. -/
theorem C9_theorem (entries : List DirEntry) :
    (get_uploaded_file_paths entries).length ≤ 1
  ∧ get_uploaded_file_paths entries
      = ((entries.find? scan_includable).map DirEntry.name).toList
  ∧ (∀ p ∈ get_uploaded_file_paths entries, path_suffix p = ".mp4")
  ∧ (∀ p ∈ get_uploaded_file_paths entries,
      ∃ e ∈ entries, e.name = p ∧ e.isFile = true ∧ e.openOk = true) := by
  have main : (get_uploaded_file_paths entries).length ≤ 1
    ∧ (∀ p ∈ get_uploaded_file_paths entries, path_suffix p = ".mp4")
    ∧ (∀ p ∈ get_uploaded_file_paths entries,
        ∃ e ∈ entries, e.name = p ∧ e.isFile = true ∧ e.openOk = true) := by
    induction entries with
      | nil => simp [get_uploaded_file_paths]
      | cons e rest ih =>
        by_cases h1 : e.isFile && (path_suffix e.name == ".mp4")
        · by_cases h2 : e.openOk
          · have hsuf : path_suffix e.name = ".mp4" := by
              simp [Bool.and_eq_true] at h1
              exact h1.2
            have hfile : e.isFile = true := by
              simp [Bool.and_eq_true] at h1
              exact h1.1
            refine ⟨?_, ?_, ?_⟩
            · simp [get_uploaded_file_paths, h1, h2]
            · intro p hp
              simp [get_uploaded_file_paths, h1, h2] at hp
              rw [hp]; exact hsuf
            · intro p hp
              simp [get_uploaded_file_paths, h1, h2] at hp
              exact ⟨e, by simp, by rw [hp], hfile, h2⟩
          · refine ⟨?_, ?_, ?_⟩
            · simpa [get_uploaded_file_paths, h1, h2] using ih.1
            · intro p hp
              simp only [get_uploaded_file_paths, h1, if_true] at hp
              simp only [h2, if_false] at hp
              exact ih.2.1 p hp
            · intro p hp
              simp only [get_uploaded_file_paths, h1, if_true] at hp
              simp only [h2, if_false] at hp
              obtain ⟨e2, he2, rest2⟩ := ih.2.2 p hp
              exact ⟨e2, List.mem_cons_of_mem e he2, rest2⟩
        · refine ⟨?_, ?_, ?_⟩
          · simpa [get_uploaded_file_paths, h1] using ih.1
          · intro p hp
            simp only [get_uploaded_file_paths, h1, if_false] at hp
            exact ih.2.1 p hp
          · intro p hp
            simp only [get_uploaded_file_paths, h1, if_false] at hp
            obtain ⟨e2, he2, rest2⟩ := ih.2.2 p hp
            exact ⟨e2, List.mem_cons_of_mem e he2, rest2⟩
  exact ⟨main.1, scan_eq_find entries, main.2.1, main.2.2⟩

/-- Witness for C9 at a concrete three-entry directory holding a `.mov` and
two stable `.mp4` files: at most one path is returned, and the returned
`.mp4` really has that extension. -/
theorem C9_witness :
    (get_uploaded_file_paths
      [{ name := "UPLOAD_DIR/a.mov", isFile := true, openOk := true,
         size1 := 1, size2 := 1 },
       { name := "UPLOAD_DIR/b.mp4", isFile := true, openOk := true,
         size1 := 1, size2 := 1 },
       { name := "UPLOAD_DIR/c.mp4", isFile := true, openOk := true,
         size1 := 1, size2 := 1 }]).length ≤ 1
  ∧ path_suffix "UPLOAD_DIR/b.mp4" = ".mp4" := by
  refine ⟨(C9_theorem _).1,
          (C9_theorem
            [{ name := "UPLOAD_DIR/a.mov", isFile := true, openOk := true,
               size1 := 1, size2 := 1 },
             { name := "UPLOAD_DIR/b.mp4", isFile := true, openOk := true,
               size1 := 1, size2 := 1 },
             { name := "UPLOAD_DIR/c.mp4", isFile := true, openOk := true,
               size1 := 1, size2 := 1 }]).2.2.1 "UPLOAD_DIR/b.mp4" ?_⟩
  decide

/-! ## Claim C6 — query fails with NotReady exactly when not ready -/

/-- Claim C6: for every query and every engine behaviour, `query` fails with
the not-ready condition if and only if `ready()` is false — never with any
other error in that case — and when ready it delegates to the engine and
returns its answer verbatim (an engine failure surfaces as a distinct
`engineFailure`, never as `notReady`). -/
theorem C6_theorem (st : StoreState) (engine_answer : Except String String) :
    ((query st engine_answer = Except.error QueryError.notReady)
      ↔ ready st = false)
  ∧ (ready st = true →
      query st engine_answer = engine_answer.mapError QueryError.engineFailure) := by
  cases hr : ready st with
  | false =>
    constructor
    · simp [query, hr]
    · intro h
      simp at h
  | true =>
    constructor
    · cases engine_answer with
      | ok a => simp [query, hr]
      | error m => simp [query, hr]
    · intro _
      cases engine_answer with
      | ok a => simp [query, hr, Except.mapError]
      | error m => simp [query, hr, Except.mapError]

/-- Witness for C6: a ready store returns the engine's answer verbatim, and a
not-ready store fails with exactly the not-ready condition. -/
theorem C6_witness :
    query { status := { state := State.ready, message := none },
            indexLoaded := true, indexDocs := [], fs := [] }
        (Except.ok "the answer")
      = Except.ok "the answer"
  ∧ query { status := { state := State.uninitialized, message := none },
            indexLoaded := false, indexDocs := [], fs := [] }
        (Except.ok "the answer")
      = Except.error QueryError.notReady := by
  constructor
  · have h := (C6_theorem
      { status := { state := State.ready, message := none },
        indexLoaded := true, indexDocs := [], fs := [] }
      (Except.ok "the answer")).2 rfl
    simpa [Except.mapError] using h
  · have h := (C6_theorem
      { status := { state := State.uninitialized, message := none },
        indexLoaded := false, indexDocs := [], fs := [] }
      (Except.ok "the answer")).1.mpr rfl
    exact h

/-! ## Claim C7 — transcriber input validation and precedence -/

/-- Claim C7 as stated is false for the Whisper variant: called with neither a
recording URL nor an audio path it raises the generic wrapped
"failed to transcribe with Whisper" error, not the InvalidInput error — the
variant performs no input validation at all. -/
theorem C7_counterexample :
    whisper_transcribe true none none
      = Except.error TranscribeError.whisperFailure
  ∧ whisper_transcribe true none none
      ≠ Except.error TranscribeError.invalidInput := by
  constructor
  · rfl
  · simp [whisper_transcribe]

/-- Claim C7 (amended): the Deepgram variant — once its API key is configured,
the key guard running first — fails with InvalidInput exactly when neither
argument is truthy, and whenever a truthy audio path is given the call is
routed to the local-file branch regardless of the URL (local audio takes
precedence). The Whisper variant ignores the recording URL entirely (so a
given audio path trivially takes precedence and any success comes from the
audio file), but performs no input validation: with no audio path it fails
with the generic Whisper failure, not InvalidInput. -/
theorem C7_theorem (k : String) (hk : k.isEmpty = false) (fs : List String)
    (apiOk : Bool) (u a : Option String) (wok : Bool) :
    (truthy u = false ∧ truthy a = false →
      dg_transcribe (some k) fs apiOk u a
        = Except.error TranscribeError.invalidInput)
  ∧ (∀ p : String, p.isEmpty = false →
      dg_transcribe (some k) fs apiOk u (some p)
        = dg_transcribe_from_file fs apiOk p)
  ∧ whisper_transcribe wok u a = whisper_transcribe wok none a
  ∧ whisper_transcribe wok u none = Except.error TranscribeError.whisperFailure
  ∧ (∀ res, whisper_transcribe wok u a = Except.ok res →
      ∃ p, a = some p ∧ res = TranscribeSource.fromFile p) := by
  have hks : truthy (some k) = true := by simp [truthy, hk]
  refine ⟨?_, ?_, rfl, rfl, ?_⟩
  · intro h
    simp [dg_transcribe, hks, h.1, h.2]
  · intro p hp
    have hpt : truthy (some p) = true := by simp [truthy, hp]
    simp [dg_transcribe, hks, hpt]
  · intro res h
    cases a with
    | none => simp [whisper_transcribe] at h
    | some p =>
      simp only [whisper_transcribe] at h
      by_cases hc : wok && !p.isEmpty
      · rw [if_pos hc] at h
        exact ⟨p, rfl, by injection h with h2; exact h2.symm⟩
      · rw [if_neg hc] at h
        exact absurd h (by simp)

/-- Witness for C7: with a configured key, Deepgram rejects the no-argument
call with InvalidInput and routes a both-arguments call to the file branch. -/
theorem C7_witness :
    dg_transcribe (some "DG_KEY") [] true none none
      = Except.error TranscribeError.invalidInput
  ∧ dg_transcribe (some "DG_KEY") ["REC/a.wav"] true
        (some "https://u") (some "REC/a.wav")
      = dg_transcribe_from_file ["REC/a.wav"] true "REC/a.wav" := by
  constructor
  · exact (C7_theorem ("DG_KEY") rfl [] true none none true).1 ⟨rfl, rfl⟩
  · exact (C7_theorem ("DG_KEY") rfl ["REC/a.wav"] true (some "https://u")
      (some "REC/a.wav") true).2.1 "REC/a.wav" rfl

/-! ## Claim C4 — destroy: fire-and-forget cancellation -/

/-- Claim C4 (spec-modelled, `Store.destroy` being absent from the source
snapshot with only its caller `shutdown` present): `destroy` cancels every
outstanding worker pool, emits no drain/await step, returns a pool list in
which every job is either already finished or hard-cancelled, and gives no
completion guarantee — there are states in which an in-flight job ends
cancelled, not done. The caller `shutdown` performs exactly this
cancellation trace. -/
theorem C4_theorem (pools : List WorkerPool) (bg : List TaskState) :
    ((destroy pools).2.all (fun e => !e.isAwaitDrain) = true)
  ∧ (∀ p ∈ (destroy pools).1, ∀ t ∈ p.tasks,
      t = TaskState.done ∨ t = TaskState.cancelled)
  ∧ (shutdown pools bg).2 = (destroy pools).2
  ∧ (∃ pools0 : List WorkerPool, ∃ p ∈ (destroy pools0).1, ∃ t ∈ p.tasks,
      t ≠ TaskState.done) := by
  refine ⟨?_, ?_, rfl, ?_⟩
  · simp only [destroy, List.all_eq_true]
    intro p hp
    simp only [List.mem_map] at hp
    obtain ⟨q, _, hq⟩ := hp
    rw [← hq]
    rfl
  · intro p hp t ht
    simp only [destroy, List.mem_map] at hp
    obtain ⟨q, _, hq⟩ := hp
    rw [← hq] at ht
    simp only [List.mem_map] at ht
    obtain ⟨t0, _, ht0⟩ := ht
    rw [← ht0]
    cases t0 <;> simp [cancelTask]
  · exact ⟨[{ poolId := 0, tasks := [TaskState.running] }],
      { poolId := 0, tasks := [TaskState.cancelled] }, by decide,
      TaskState.cancelled, by decide, by decide⟩

/-- Witness for C4 at a concrete pool holding one running and one finished
job: no drain event is emitted and the running job ends cancelled. -/
theorem C4_witness :
    ((destroy [{ poolId := 7, tasks := [TaskState.running, TaskState.done] }]).2.all
        (fun e => !e.isAwaitDrain) = true)
  ∧ (TaskState.cancelled = TaskState.done
      ∨ TaskState.cancelled = TaskState.cancelled) := by
  refine ⟨(C4_theorem [{ poolId := 7, tasks := [TaskState.running, TaskState.done] }] []).1,
          (C4_theorem [{ poolId := 7, tasks := [TaskState.running, TaskState.done] }] []).2.1
            { poolId := 7, tasks := [TaskState.cancelled, TaskState.done] }
            (by decide) TaskState.cancelled (by decide)⟩

/-! ## Claim C2 — initialize_or_update always resolves to READY or ERROR -/

/-- Claim C2: for every source behaviour (`ingest` ranges over arbitrary
ingestion functions, covering both sources, successes and raised exceptions
alike) and every outcome of index creation and persistence, the state after
`initialize_or_update` is READY or ERROR — never CREATING, UPDATING or
LOADING. The embedding returns a plain state (not an `Option` error),
mirroring that the method's two `try/except` blocks let no exception
propagate: every path ends in an IndexStatus update. -/
theorem C2_theorem
    (ingest : StoreState → StoreState × List Event × Option String)
    (create_ok persist_ok : Bool) (st : StoreState) :
    (initialize_or_update ingest create_ok persist_ok st).1.status.state = State.ready
  ∨ (initialize_or_update ingest create_ok persist_ok st).1.status.state = State.error := by
  have hup : ∀ (s : StoreState) (ev0 : List Event),
      (initialize_update_phase ingest persist_ok s ev0).1.status.state = State.ready
    ∨ (initialize_update_phase ingest persist_ok s ev0).1.status.state = State.error := by
    intro s ev0
    unfold initialize_update_phase
    dsimp only
    split
    · right; rfl
    · split
      · left; rfl
      · right; rfl
  unfold initialize_or_update
  split
  · exact hup st []
  · dsimp only
    split
    · right; rfl
    · split
      · exact hup _ _
      · right; rfl

/-! ## Claim C10 — first-time build runs the ingestion pipeline twice -/

/-- Claim C10: when `initialize_or_update` starts with `ready()` false and the
index-creation phase succeeds, the per-source ingestion pipeline `ingest`
runs twice in that one call — its trace appears once before the bulk
`createIndex` (inside `generate_index`, during CREATING) and once again
after it (during UPDATING) — whatever the update phase then resolves to
(the trailing events are at most the final persist). Duplicate processing
in a first-time build is therefore prevented only by the
transcript-existence check inside the per-item jobs. -/
theorem C10_theorem
    (ingest : StoreState → StoreState × List Event × Option String)
    (persist_ok : Bool) (st : StoreState) (hready : ready st = false)
    (h1 : (ingest (set_status st State.creating "Creating index")).2.2 = none) :
    ∃ tail : List Event,
      (tail = [] ∨ tail = [Event.persistIndex])
      ∧ (initialize_or_update ingest true persist_ok st).2
        = (ingest (set_status st State.creating "Creating index")).2.1
          ++ Event.createIndex
            :: (ingest (set_status
                { (ingest (set_status st State.creating "Creating index")).1 with
                    indexLoaded := true }
                State.updating "Updating index")).2.1
          ++ tail := by
  unfold initialize_or_update
  rw [if_neg (by simp [hready])]
  dsimp only
  split
  · next e heq =>
      rw [h1] at heq
      cases heq
  · rw [if_pos rfl]
    unfold initialize_update_phase
    dsimp only
    split
    · exact ⟨[], Or.inl rfl, by simp⟩
    · split
      · exact ⟨[Event.persistIndex], Or.inr rfl, by simp⟩
      · exact ⟨[], Or.inl rfl, by simp⟩

/-- Witness for C10: a marker ingestion step appears twice in the trace of a
single first-time `initialize_or_update` call, around the bulk build. -/
theorem C10_witness :
    ∃ tail : List Event,
      (initialize_or_update
          (fun s => (s, [Event.transcribeCall none none], none)) true true
          { status := { state := State.uninitialized, message := none },
            indexLoaded := false, indexDocs := [], fs := [] }).2
        = [Event.transcribeCall none none, Event.createIndex,
           Event.transcribeCall none none] ++ tail := by
  obtain ⟨tail, _, heq⟩ := C10_theorem
    (fun s => (s, [Event.transcribeCall none none], none)) true
    { status := { state := State.uninitialized, message := none },
      indexLoaded := false, indexDocs := [], fs := [] } rfl rfl
  exact ⟨tail, by simpa using heq⟩

/-! ## Claim C3 — idempotency: existing transcript short-circuits the item -/

/-- Claim C3: whenever the transcript file for an item's deterministic key
already exists, the item is skipped before any media work — the run performs
no extraction, no download and no transcription call for it (its trace is
empty on the Daily path), and on the uploads path the only effect is that
the now-redundant source video is still deleted. -/
theorem C3_theorem (cfg : StoreCfg) (tr tr2 : TranscriberModel)
    (accessOk downloadOk extractOk extractOk2 : Bool)
    (st st2 : StoreState) (r : Recording) (tdir video_path : String)
    (h1 : st.fs.contains (recording_transcript_path cfg r) = true)
    (h2 : st2.fs.contains (upload_transcript_path tdir video_path) = true) :
    transcribe_and_index_recording cfg tr accessOk downloadOk extractOk st r
      = (st, [], none)
  ∧ transcribe_and_index_file tdir tr2 extractOk2 st2 video_path
      = ({ st2 with fs := st2.fs.erase video_path },
         [Event.removeFile video_path], none) :=
  ⟨skip_recording_eq cfg tr accessOk downloadOk extractOk st r h1,
   skip_file_eq tdir tr2 extractOk2 st2 video_path h2⟩

/-- Witness for C3 at concrete states whose transcript files already exist:
the Daily item does nothing at all; the uploaded item only loses its source
video. -/
theorem C3_witness :
    transcribe_and_index_recording
        { daily_room_name := some "room", transcripts_dir := "TRANSCRIPTS",
          recordings_dir := "RECORDINGS", upload_dir := "UPLOADS" }
        { requires_local_audio := true,
          transcribe := fun _ _ => Except.error "unused" }
        true true true
        { status := { state := State.ready, message := none },
          indexLoaded := true, indexDocs := [],
          fs := ["TRANSCRIPTS/2024_room_rec1.txt"] }
        { id := "rec1", room_name := "room", timestamp := "2024" }
      = ({ status := { state := State.ready, message := none },
           indexLoaded := true, indexDocs := [],
           fs := ["TRANSCRIPTS/2024_room_rec1.txt"] }, [], none)
  ∧ transcribe_and_index_file "TRANSCRIPTS"
        { requires_local_audio := true,
          transcribe := fun _ _ => Except.error "unused" }
        true
        { status := { state := State.ready, message := none },
          indexLoaded := true, indexDocs := [],
          fs := ["TRANSCRIPTS/vid.txt", "UPLOADS/vid.mp4"] }
        "UPLOADS/vid.mp4"
      = ({ status := { state := State.ready, message := none },
           indexLoaded := true, indexDocs := [],
           fs := ["TRANSCRIPTS/vid.txt"] },
         [Event.removeFile "UPLOADS/vid.mp4"], none) := by
  have h := C3_theorem
    { daily_room_name := some "room", transcripts_dir := "TRANSCRIPTS",
      recordings_dir := "RECORDINGS", upload_dir := "UPLOADS" }
    { requires_local_audio := true,
      transcribe := fun _ _ => Except.error "unused" }
    { requires_local_audio := true,
      transcribe := fun _ _ => Except.error "unused" }
    true true true true
    { status := { state := State.ready, message := none },
      indexLoaded := true, indexDocs := [],
      fs := ["TRANSCRIPTS/2024_room_rec1.txt"] }
    { status := { state := State.ready, message := none },
      indexLoaded := true, indexDocs := [],
      fs := ["TRANSCRIPTS/vid.txt", "UPLOADS/vid.mp4"] }
    { id := "rec1", room_name := "room", timestamp := "2024" }
    "TRANSCRIPTS" "UPLOADS/vid.mp4" (by decide) (by decide)
  refine ⟨h.1, ?_⟩
  rw [h.2]
  decide

/-! ## Claim C8 — transcript write precedes conditional insert; skips never insert -/

/-- Claim C8: saving and indexing are performed together in order — the
transcript file write comes first, and the index insertion is attempted
exactly when the index is currently loaded; moreover a per-item job skipped
by the idempotency check performs no insertion at all (its index documents
are unchanged on both ingestion paths). -/
theorem C8_theorem (st st2 st3 : StoreState) (path text tdir video : String)
    (cfg : StoreCfg) (r : Recording) (tr tr2 : TranscriberModel)
    (extractOk accessOk downloadOk extractOk2 : Bool) :
    (save_and_index_transcript st path text).2
      = Event.writeTranscript path text
        :: (if ready st = true then [Event.insertDoc text] else [])
  ∧ (save_and_index_transcript st path text).1.fs.contains path = true
  ∧ (ready st = false →
      (save_and_index_transcript st path text).1.indexDocs = st.indexDocs)
  ∧ (st2.fs.contains (upload_transcript_path tdir video) = true →
      (transcribe_and_index_file tdir tr extractOk st2 video).2.1.all
          (fun ev => !ev.isInsertDoc) = true
      ∧ (transcribe_and_index_file tdir tr extractOk st2 video).1.indexDocs
          = st2.indexDocs)
  ∧ (st3.fs.contains (recording_transcript_path cfg r) = true →
      (transcribe_and_index_recording cfg tr2 accessOk downloadOk extractOk2
          st3 r).2.1.all (fun ev => !ev.isInsertDoc) = true
      ∧ (transcribe_and_index_recording cfg tr2 accessOk downloadOk extractOk2
          st3 r).1.indexDocs = st3.indexDocs) := by
  refine ⟨?_, ?_, ?_, ?_, ?_⟩
  · cases hr : ready st with
    | true => simp [save_and_index_transcript, hr]
    | false => simp [save_and_index_transcript, hr]
  · unfold save_and_index_transcript
    split
    · exact contains_insertFile path st.fs
    · exact contains_insertFile path st.fs
  · intro hr
    simp [save_and_index_transcript, hr]
  · intro h
    rw [skip_file_eq tdir tr extractOk st2 video h]
    simp [Event.isInsertDoc]
  · intro h
    rw [skip_recording_eq cfg tr2 accessOk downloadOk extractOk2 st3 r h]
    simp

/-- Witness for C8: on a ready store the trace is exactly write-then-insert;
on a store not ready only the write happens; a skipped uploaded item leaves
the index documents unchanged. -/
theorem C8_witness :
    (save_and_index_transcript
        { status := { state := State.ready, message := none },
          indexLoaded := true, indexDocs := ["old"], fs := [] }
        "TRANSCRIPTS/new.txt" "hello").2
      = [Event.writeTranscript "TRANSCRIPTS/new.txt" "hello",
         Event.insertDoc "hello"]
  ∧ (transcribe_and_index_file "TRANSCRIPTS"
        { requires_local_audio := true,
          transcribe := fun _ _ => Except.error "unused" }
        true
        { status := { state := State.ready, message := none },
          indexLoaded := true, indexDocs := ["old"],
          fs := ["TRANSCRIPTS/vid.txt", "UPLOADS/vid.mp4"] }
        "UPLOADS/vid.mp4").1.indexDocs = ["old"] := by
  constructor
  · have h := (C8_theorem
      { status := { state := State.ready, message := none },
        indexLoaded := true, indexDocs := ["old"], fs := [] }
      { status := { state := State.ready, message := none },
        indexLoaded := true, indexDocs := ["old"], fs := [] }
      { status := { state := State.ready, message := none },
        indexLoaded := true, indexDocs := ["old"], fs := [] }
      "TRANSCRIPTS/new.txt" "hello" "TRANSCRIPTS" "UPLOADS/vid.mp4"
      { daily_room_name := none, transcripts_dir := "TRANSCRIPTS",
        recordings_dir := "RECORDINGS", upload_dir := "UPLOADS" }
      { id := "rec1", room_name := "room", timestamp := "2024" }
      { requires_local_audio := true,
        transcribe := fun _ _ => Except.error "unused" }
      { requires_local_audio := true,
        transcribe := fun _ _ => Except.error "unused" }
      true true true true).1
    simpa using h
  · exact (C8_theorem
      { status := { state := State.ready, message := none },
        indexLoaded := true, indexDocs := ["old"], fs := [] }
      { status := { state := State.ready, message := none },
        indexLoaded := true, indexDocs := ["old"],
        fs := ["TRANSCRIPTS/vid.txt", "UPLOADS/vid.mp4"] }
      { status := { state := State.ready, message := none },
        indexLoaded := true, indexDocs := ["old"], fs := [] }
      "TRANSCRIPTS/new.txt" "hello" "TRANSCRIPTS" "UPLOADS/vid.mp4"
      { daily_room_name := none, transcripts_dir := "TRANSCRIPTS",
        recordings_dir := "RECORDINGS", upload_dir := "UPLOADS" }
      { id := "rec1", room_name := "room", timestamp := "2024" }
      { requires_local_audio := true,
        transcribe := fun _ _ => Except.error "unused" }
      { requires_local_audio := true,
        transcribe := fun _ _ => Except.error "unused" }
      true true true true).2.2.2.1 (by decide) |>.2

/-! ## Claim C1 — failure isolation during transcription -/

/-- The tail of the Daily item job never propagates an exception: the
transcription call is inside `try/except`. -/
theorem finish_no_propagate (tr : TranscriberModel) (st : StoreState)
    (ev : List Event) (url : String) (ap : Option String) (tp : String) :
    (finish_recording_item tr st ev url ap tp).2.2 = none := by
  unfold finish_recording_item
  split
  · rfl
  · dsimp only
    split
    · rfl
    · rfl

/-- A Daily item job with a healthy access link and healthy media download /
extraction never propagates an exception, whatever the transcriber does. -/
theorem recording_item_no_propagate (cfg : StoreCfg) (tr : TranscriberModel)
    (st : StoreState) (r : Recording) :
    (transcribe_and_index_recording cfg tr true true true st r).2.2 = none := by
  unfold transcribe_and_index_recording
  split
  · rfl
  · dsimp only
    split
    · rfl
    · rw [if_neg (by simp)]
      split
      · split
        · exact finish_no_propagate ..
        · simp only [produce_local_audio_from_url]
          rw [if_neg (by simp), if_neg (by simp)]
          exact finish_no_propagate ..
      · exact finish_no_propagate ..

/-- A whole Daily batch never aborts on transcription failures: the batch
await re-raises nothing because no item job raises. -/
theorem daily_batch_no_propagate (cfg : StoreCfg) (tr : TranscriberModel)
    (st : StoreState) (rs : List Recording) :
    (run_batch (transcribe_and_index_recording cfg tr true true true)
      st rs).2.2 = none := by
  induction rs generalizing st with
  | nil => rfl
  | cons r rest ih =>
    simp [run_batch, recording_item_no_propagate, ih]

theorem logEvent_isSkipLog (u e : String) : (logEvent u e).isSkipLog = true := by
  unfold logEvent
  split
  · rfl
  · rfl

theorem logEvent_not_write (u e : String) :
    (logEvent u e).isWriteTranscript = false := by
  unfold logEvent
  split
  · rfl
  · rfl

/-- With a failing transcription, the tail of the Daily item job returns
normally with the failure logged and no state change. -/
theorem finish_fail_eq (tr : TranscriberModel) (st : StoreState)
    (ev : List Event) (url : String) (ap : Option String) (tp : String)
    (e : String) (hfail : tr.transcribe (some url) ap = Except.error e) :
    finish_recording_item tr st ev url ap tp
      = (st, ev ++ [Event.transcribeCall (some url) ap, logEvent url e],
         none) := by
  unfold finish_recording_item
  rw [hfail]

/-- Failure isolation on the Daily path: a transcription exception is caught,
a skip is logged, nothing propagates, and the failing recording gets no
transcript write and no index entry. -/
theorem recording_fail_isolated (cfg : StoreCfg) (tr : TranscriberModel)
    (st : StoreState) (r : Recording) (e : String)
    (hfail : ∀ u a, tr.transcribe u a = Except.error e)
    (hroom : cfg.daily_room_name = some r.room_name)
    (habs : st.fs.contains (recording_transcript_path cfg r) = false) :
    (transcribe_and_index_recording cfg tr true true true st r).2.2 = none
  ∧ (transcribe_and_index_recording cfg tr true true true st r).1.indexDocs
      = st.indexDocs
  ∧ (transcribe_and_index_recording cfg tr true true true st r).2.1.all
      (fun ev => !ev.isWriteTranscript) = true
  ∧ (transcribe_and_index_recording cfg tr true true true st r).2.1.any
      Event.isSkipLog = true := by
  have habs' : st.fs.contains
      (path_join cfg.transcripts_dir (recording_file_name r ++ ".txt"))
        = false := by
    simpa [recording_transcript_path] using habs
  unfold transcribe_and_index_recording
  rw [if_neg (by simp [hroom])]
  dsimp only
  rw [habs']
  rw [if_neg (by simp), if_neg (by simp)]
  by_cases hreq : tr.requires_local_audio = true
  · rw [if_pos hreq]
    by_cases hca : st.fs.contains
        (path_join cfg.recordings_dir (recording_file_name r ++ ".wav")) = true
    · rw [if_pos hca]
      rw [finish_fail_eq _ _ _ _ _ _ e (hfail _ _)]
      refine ⟨rfl, rfl, ?_, ?_⟩
      · cases hm : mentions413 e <;>
          simp [Event.isWriteTranscript, logEvent, hm]
      · cases hm : mentions413 e <;>
          simp [Event.isSkipLog, logEvent, hm]
    · rw [if_neg hca]
      simp only [produce_local_audio_from_url]
      rw [if_neg (by simp), if_neg (by simp)]
      dsimp only
      rw [finish_fail_eq _ _ _ _ _ _ e (hfail _ _)]
      refine ⟨rfl, rfl, ?_, ?_⟩
      · cases hm : mentions413 e <;>
          simp [Event.isWriteTranscript, logEvent, hm]
      · cases hm : mentions413 e <;>
          simp [Event.isSkipLog, logEvent, hm]
  · rw [if_neg hreq]
    rw [finish_fail_eq _ _ _ _ _ _ e (hfail _ _)]
    refine ⟨rfl, rfl, ?_, ?_⟩
    · cases hm : mentions413 e <;>
        simp [Event.isWriteTranscript, logEvent, hm]
    · cases hm : mentions413 e <;>
        simp [Event.isSkipLog, logEvent, hm]

/-- With a successful transcription, the tail of the Daily item job records
the transcript write and, when the index is loaded, inserts the document. -/
theorem finish_ok_props (tr : TranscriberModel) (st : StoreState)
    (ev : List Event) (url : String) (ap : Option String) (tp t : String)
    (hok : tr.transcribe (some url) ap = Except.ok t) :
    (finish_recording_item tr st ev url ap tp).2.1.any
      Event.isWriteTranscript = true
  ∧ (ready st = true →
      (finish_recording_item tr st ev url ap tp).1.indexDocs
        = st.indexDocs ++ [t]) := by
  unfold finish_recording_item
  rw [hok]
  dsimp only
  cases hr : ready st with
  | true =>
    by_cases ht : truthy ap = true
    · rw [if_pos ht]
      refine ⟨?_, fun _ => ?_⟩
      · simp [save_and_index_transcript, hr, Event.isWriteTranscript]
      · simp [save_and_index_transcript, hr]
    · rw [if_neg ht]
      refine ⟨?_, fun _ => ?_⟩
      · simp [save_and_index_transcript, hr, Event.isWriteTranscript]
      · simp [save_and_index_transcript, hr]
  | false =>
    by_cases ht : truthy ap = true
    · rw [if_pos ht]
      refine ⟨?_, fun hcontra => ?_⟩
      · simp [save_and_index_transcript, hr, Event.isWriteTranscript]
      · cases hcontra
    · rw [if_neg ht]
      refine ⟨?_, fun hcontra => ?_⟩
      · simp [save_and_index_transcript, hr, Event.isWriteTranscript]
      · cases hcontra

/-- A Daily item job that passes its guards reduces to the `try`-block tail,
on a state with the same index documents and the same index handle, after a
prefix of pure media bookkeeping events. -/
theorem recording_to_finish (cfg : StoreCfg) (tr : TranscriberModel)
    (st : StoreState) (r : Recording)
    (hroom : cfg.daily_room_name = some r.room_name)
    (habs : st.fs.contains (recording_transcript_path cfg r) = false) :
    ∃ (st' : StoreState) (ev : List Event) (ap : Option String),
      transcribe_and_index_recording cfg tr true true true st r
        = finish_recording_item tr st' ev (access_link_url r) ap
            (path_join cfg.transcripts_dir (recording_file_name r ++ ".txt"))
      ∧ st'.indexDocs = st.indexDocs
      ∧ st'.indexLoaded = st.indexLoaded
      ∧ ev.all (fun x => !x.isWriteTranscript) = true := by
  have habs' : st.fs.contains
      (path_join cfg.transcripts_dir (recording_file_name r ++ ".txt"))
        = false := by
    simpa [recording_transcript_path] using habs
  unfold transcribe_and_index_recording
  rw [if_neg (by simp [hroom])]
  dsimp only
  rw [habs']
  rw [if_neg (by simp), if_neg (by simp)]
  by_cases hreq : tr.requires_local_audio = true
  · rw [if_pos hreq]
    by_cases hca : st.fs.contains
        (path_join cfg.recordings_dir (recording_file_name r ++ ".wav")) = true
    · rw [if_pos hca]
      exact ⟨st, [Event.getAccessLink r.id],
        some (path_join cfg.recordings_dir (recording_file_name r ++ ".wav")),
        rfl, rfl, rfl, by simp [Event.isWriteTranscript]⟩
    · rw [if_neg hca]
      simp only [produce_local_audio_from_url]
      rw [if_neg (by simp), if_neg (by simp)]
      dsimp only
      refine ⟨_, _, _, rfl, rfl, rfl, ?_⟩
      simp [Event.isWriteTranscript]
  · rw [if_neg hreq]
    exact ⟨st, [Event.getAccessLink r.id], none, rfl, rfl, rfl,
      by simp [Event.isWriteTranscript]⟩

/-- A succeeding Daily sibling writes its transcript and, when the index is
loaded, has its document inserted. -/
theorem recording_success (cfg : StoreCfg) (tr : TranscriberModel)
    (st : StoreState) (r : Recording) (t : String)
    (hok : ∀ u a, tr.transcribe u a = Except.ok t)
    (hroom : cfg.daily_room_name = some r.room_name)
    (habs : st.fs.contains (recording_transcript_path cfg r) = false) :
    (transcribe_and_index_recording cfg tr true true true st r).2.2 = none
  ∧ (transcribe_and_index_recording cfg tr true true true st r).2.1.any
      Event.isWriteTranscript = true
  ∧ (ready st = true →
      (transcribe_and_index_recording cfg tr true true true st r).1.indexDocs
        = st.indexDocs ++ [t]) := by
  obtain ⟨st', ev, ap, heq, hdocs, hload, hev⟩ :=
    recording_to_finish cfg tr st r hroom habs
  rw [heq]
  refine ⟨finish_no_propagate .., (finish_ok_props tr st' ev _ ap _ t
    (hok _ _)).1, fun hr => ?_⟩
  have hr' : ready st' = true := by
    unfold ready at hr ⊢
    rw [hload]
    exact hr
  rw [(finish_ok_props tr st' ev _ ap _ t (hok _ _)).2 hr', hdocs]

/-- On the uploads path the transcription call is not guarded: a transcriber
exception propagates out of the item job; the failing upload still gets no
transcript write and no index entry. -/
theorem upload_fail_propagates (tdir : String) (tr : TranscriberModel)
    (st : StoreState) (video_path : String) (e : String)
    (hfail : ∀ u a, tr.transcribe u a = Except.error e)
    (habs : st.fs.contains (upload_transcript_path tdir video_path) = false) :
    (transcribe_and_index_file tdir tr true st video_path).2.2 = some e
  ∧ (transcribe_and_index_file tdir tr true st video_path).1.indexDocs
      = st.indexDocs
  ∧ (transcribe_and_index_file tdir tr true st video_path).2.1.all
      (fun ev => !ev.isWriteTranscript) = true := by
  unfold transcribe_and_index_file
  dsimp only
  rw [habs]
  rw [if_neg (by simp)]
  by_cases hca : st.fs.contains (get_audio_path video_path) = true
  · rw [if_pos hca]
    unfold upload_after_audio
    rw [hfail]
    exact ⟨rfl, rfl, by simp [Event.isWriteTranscript]⟩
  · rw [if_neg hca, if_pos rfl]
    unfold upload_after_audio
    rw [hfail]
    exact ⟨rfl, rfl, by simp [Event.isWriteTranscript]⟩

/-- Claim C1 as stated is false on the uploads ingestion path: in
`transcribe_and_index_file` the transcription call is not wrapped in
`try/except`, so at this concrete input the item job propagates the
transcriber's exception ("boom") instead of catching, logging and skipping. -/
theorem C1_counterexample :
    (transcribe_and_index_file "TRANSCRIPTS"
        { requires_local_audio := true,
          transcribe := fun _ _ => Except.error "boom" }
        true
        { status := { state := State.ready, message := none },
          indexLoaded := true, indexDocs := [],
          fs := ["UPLOADS/a.wav", "UPLOADS/a.mp4"] }
        "UPLOADS/a.mp4").2.2 = some "boom"
  ∧ (transcribe_and_index_file "TRANSCRIPTS"
        { requires_local_audio := true,
          transcribe := fun _ _ => Except.error "boom" }
        true
        { status := { state := State.ready, message := none },
          indexLoaded := true, indexDocs := [],
          fs := ["UPLOADS/a.wav", "UPLOADS/a.mp4"] }
        "UPLOADS/a.mp4").2.2 ≠ none := by
  constructor
  · rfl
  · intro hcontra
    cases hcontra.symm.trans
      (show (transcribe_and_index_file "TRANSCRIPTS"
        { requires_local_audio := true,
          transcribe := fun _ _ => Except.error "boom" }
        true
        { status := { state := State.ready, message := none },
          indexLoaded := true, indexDocs := [],
          fs := ["UPLOADS/a.wav", "UPLOADS/a.mp4"] }
        "UPLOADS/a.mp4").2.2 = some "boom" from rfl)

/-- Claim C1 (amended): on the Daily cloud path a transcription exception is
caught and logged, the item is skipped, nothing propagates, the batch is
never aborted by transcription failures, and a succeeding sibling still
writes its transcript and is indexed when the index is loaded; on either
path the failing item produces no transcript write and no index entry. On
the uploads path, however, the exception is NOT caught per item: it
propagates out of `transcribe_and_index_file` into the batch await (from
which `initialize_or_update` resolves it into an ERROR status). -/
theorem C1_theorem (cfg : StoreCfg) (tr : TranscriberModel)
    (st st2 : StoreState) (r : Recording) (tdir video_path e : String)
    (hfail : ∀ u a, tr.transcribe u a = Except.error e)
    (hroom : cfg.daily_room_name = some r.room_name)
    (habs : st.fs.contains (recording_transcript_path cfg r) = false)
    (habs2 : st2.fs.contains (upload_transcript_path tdir video_path) = false) :
    ((transcribe_and_index_recording cfg tr true true true st r).2.2 = none
      ∧ (transcribe_and_index_recording cfg tr true true true st r).1.indexDocs
          = st.indexDocs
      ∧ (transcribe_and_index_recording cfg tr true true true st r).2.1.all
          (fun ev => !ev.isWriteTranscript) = true
      ∧ (transcribe_and_index_recording cfg tr true true true st r).2.1.any
          Event.isSkipLog = true)
  ∧ (∀ (tr3 : TranscriberModel) (st3 : StoreState) (rs : List Recording),
      (run_batch (transcribe_and_index_recording cfg tr3 true true true)
        st3 rs).2.2 = none)
  ∧ (∀ (tr2 : TranscriberModel) (st4 : StoreState) (r2 : Recording) (t : String),
      (∀ u a, tr2.transcribe u a = Except.ok t) →
      cfg.daily_room_name = some r2.room_name →
      st4.fs.contains (recording_transcript_path cfg r2) = false →
      (transcribe_and_index_recording cfg tr2 true true true st4 r2).2.2 = none
      ∧ (transcribe_and_index_recording cfg tr2 true true true st4 r2).2.1.any
          Event.isWriteTranscript = true
      ∧ (ready st4 = true →
          (transcribe_and_index_recording cfg tr2 true true true st4 r2).1.indexDocs
            = st4.indexDocs ++ [t]))
  ∧ ((transcribe_and_index_file tdir tr true st2 video_path).2.2 = some e
      ∧ (transcribe_and_index_file tdir tr true st2 video_path).1.indexDocs
          = st2.indexDocs
      ∧ (transcribe_and_index_file tdir tr true st2 video_path).2.1.all
          (fun ev => !ev.isWriteTranscript) = true) := by
  refine ⟨recording_fail_isolated cfg tr st r e hfail hroom habs,
          fun tr3 st3 rs => daily_batch_no_propagate cfg tr3 st3 rs,
          fun tr2 st4 r2 t hok hroom2 habs4 =>
            recording_success cfg tr2 st4 r2 t hok hroom2 habs4,
          upload_fail_propagates tdir tr st2 video_path e hfail habs2⟩

/-- Witness for C1: with an always-failing transcriber, the concrete Daily
item returns normally (exception caught) while the concrete uploaded item
propagates the same exception. -/
theorem C1_witness :
    (transcribe_and_index_recording
        { daily_room_name := some "room", transcripts_dir := "TRANSCRIPTS",
          recordings_dir := "RECORDINGS", upload_dir := "UPLOADS" }
        { requires_local_audio := false,
          transcribe := fun _ _ => Except.error "boom" }
        true true true
        { status := { state := State.ready, message := none },
          indexLoaded := true, indexDocs := [], fs := [] }
        { id := "rec1", room_name := "room", timestamp := "2024" }).2.2 = none
  ∧ (transcribe_and_index_file "TRANSCRIPTS"
        { requires_local_audio := false,
          transcribe := fun _ _ => Except.error "boom" }
        true
        { status := { state := State.ready, message := none },
          indexLoaded := true, indexDocs := [],
          fs := ["UPLOADS/a.wav", "UPLOADS/a.mp4"] }
        "UPLOADS/a.mp4").2.2 = some "boom" := by
  have h := C1_theorem
    { daily_room_name := some "room", transcripts_dir := "TRANSCRIPTS",
      recordings_dir := "RECORDINGS", upload_dir := "UPLOADS" }
    { requires_local_audio := false,
      transcribe := fun _ _ => Except.error "boom" }
    { status := { state := State.ready, message := none },
      indexLoaded := true, indexDocs := [], fs := [] }
    { status := { state := State.ready, message := none },
      indexLoaded := true, indexDocs := [],
      fs := ["UPLOADS/a.wav", "UPLOADS/a.mp4"] }
    { id := "rec1", room_name := "room", timestamp := "2024" }
    "TRANSCRIPTS" "UPLOADS/a.mp4" "boom"
    (fun _ _ => rfl) rfl (by decide) (by decide)
  exact ⟨h.1.1, h.2.2.2.1⟩
